import Mathlib

/-!
Verification development for the Result/error-handling kernel and the
self-validating value-object framework of the scaffold-clean-architecture
TypeScript repository.

The TypeScript classes are shallowly embedded:

* JS strings are modelled as Lean `String`s (in Lean 4.14 a `String` is a
  wrapper around `List Char`, so character-level reasoning is structural);
* JS `null`/`undefined` inputs are modelled as `Option` (`none` = absent);
* code that can `throw` returns `Except Thrown` instead of its plain value;
* effectful callbacks (whose number of invocations is observable) are
  modelled as state transformers over an arbitrary state type, so "the
  callback was never invoked" is expressed as "the state is unchanged for
  every possible callback";
* object identity (JS reference equality, `===`) is modelled, where a claim
  needs it, by an allocation counter: `new` hands out a fresh id.

Field-initialisation order is modelled faithfully: in JavaScript a derived
class assigns its own fields only after `super(...)` returns, so an
overridden method invoked from the base constructor observes those fields
as `undefined` (modelled as `none`); reading a property of `undefined`
throws a `TypeError`.
-/

namespace Scaffold

/-! ## Error taxonomy (`ErrorType`, `ResultException`) — result.exception.ts -/

/-- The `ErrorType` enumeration (string enum in the source). -/
inductive ErrorType where
  | VALIDATION
  | NOT_FOUND
  | CONFLICT
  | UNAUTHORIZED
  | FORBIDDEN
  | INTERNAL
  | DOMAIN
  | APPLICATION
  | INFRASTRUCTURE
deriving Repr, DecidableEq

/-- The string value each `ErrorType` enum member carries in the source. -/
def ErrorType.name : ErrorType → String
  | .VALIDATION => "VALIDATION"
  | .NOT_FOUND => "NOT_FOUND"
  | .CONFLICT => "CONFLICT"
  | .UNAUTHORIZED => "UNAUTHORIZED"
  | .FORBIDDEN => "FORBIDDEN"
  | .INTERNAL => "INTERNAL"
  | .DOMAIN => "DOMAIN"
  | .APPLICATION => "APPLICATION"
  | .INFRASTRUCTURE => "INFRASTRUCTURE"

/-- Metadata values attached to a single validation issue: the source
stores lengths, bounds and pattern texts there, and
`UserPassword.validateString` stores a policy error's `details` record
under `policyError` (`errDetails` carries its `code`, `message`, `source`
and `stack`; the always-empty metadata record of those policy errors is
elided). -/
inductive MVal where
  | str (s : String)
  | num (n : Nat)
  | mbool (b : Bool)
  | errDetails (code message source : String) (stack : Option String)
deriving Repr, DecidableEq

/-- `IValidationError` from validation-handler.abstract.ts:
`message`, `property`, optional `metadata`. -/
structure IValidationError where
  message : String
  property : String
  metadata : Option (List (String × MVal))
deriving Repr, DecidableEq

/-- Values stored in a `ResultException`'s `metadata` record: strings
(`originalError` names), numbers, booleans, and the accumulated issue list
stored by `throwIfHasErrors` under `errors`. -/
inductive MetaVal where
  | str (s : String)
  | num (n : Nat)
  | mbool (b : Bool)
  | errs (l : List IValidationError)
deriving Repr, DecidableEq

/-- The optional `options` bag of the `ResultException` constructor. -/
structure ExceptionOptions where
  code : Option String
  statusCode : Option Nat
  source : Option String
  metadata : Option (List (String × MetaVal))
  isOperational : Option Bool
  stack : Option String
deriving Repr, DecidableEq

/-- The all-absent options bag (`options` omitted at a call site). -/
def ExceptionOptions.empty : ExceptionOptions :=
  ⟨none, none, none, none, none, none⟩

/-- `ResultException`: `type`, the `details` record flattened
(`code`, `message`, `source`, `metadata`, `stack`), plus `statusCode` and
`isOperational`.  `details.timestamp` (`new Date()`, ambient wall-clock
time) is not modelled; no claim mentions it. -/
structure ResultException where
  type : ErrorType
  message : String
  code : String
  source : String
  metadata : List (String × MetaVal)
  statusCode : Nat
  isOperational : Bool
  stack : Option String
deriving Repr, DecidableEq

/-- `resolveStatusCode` — the fixed `ErrorType` → HTTP status table. -/
def resolveStatusCode : ErrorType → Nat
  | .VALIDATION => 400
  | .NOT_FOUND => 404
  | .CONFLICT => 409
  | .UNAUTHORIZED => 401
  | .FORBIDDEN => 403
  | .INTERNAL => 500
  | .DOMAIN => 422
  | .APPLICATION => 500
  | .INFRASTRUCTURE => 500

/-- The `ResultException` constructor.  `capturedStack` models the stack
string the JS runtime captures for the new `Error` object (`this.stack`),
used when `options.stack` is absent.  Defaults follow the source:
`code ?? type`, `source ?? "unknown"`, `metadata ||` the empty record,
`statusCode ?? resolveStatusCode(type)`,
`isOperational !== undefined ? isOperational : true`. -/
def mkResultException (type : ErrorType) (message : String)
    (options : ExceptionOptions) (capturedStack : Option String) :
    ResultException :=
  { type := type
    message := message
    code := options.code.getD type.name
    source := options.source.getD "unknown"
    metadata := options.metadata.getD []
    statusCode := options.statusCode.getD (resolveStatusCode type)
    isOperational := options.isOperational.getD true
    stack := options.stack.orElse (fun _ => capturedStack) }

/-- A JS `Error` value as seen by `ResultException.fromError` and the
`instanceof` cascades: either already a `ResultException`, or a plain
`Error` with a `name`, `message` and optional `stack`. -/
inductive JsErr where
  | structured (r : ResultException)
  | plain (name message : String) (stack : Option String)
deriving Repr, DecidableEq

/-- `ResultException.fromError(error, type = INTERNAL)`: a value that is
already a `ResultException` is returned as-is (the very same object);
a plain error is wrapped — message copied verbatim,
`metadata.originalError` set to the source error's name, `stack` copied.
The freshly captured stack of the wrapping exception is `none` here; it is
only consulted when the original error has no stack. -/
def ResultException.fromError (error : JsErr) (type : ErrorType) :
    ResultException :=
  match error with
  | .structured r => r
  | .plain name message stack =>
      mkResultException type message
        ⟨none, none, none, some [("originalError", MetaVal.str name)], none,
          stack⟩ none

/-! ## The `Result` container — result.pattern.ts -/

/-- `Result<SuccessValue>`: the class holds `_isSuccess`, an optional
`_value` and an optional `_error`; its constructor is private and only the
`success`/`failure` factories reach it, so every instance is exactly one of
the two shapes below.  A JS success may still carry `undefined`
(`success()` with no argument), hence the `Option` inside `success`. -/
inductive Result (α : Type) where
  | success (value : Option α)
  | failure (error : ResultException)
deriving Repr, DecidableEq

/-- `isSuccess()`. -/
def Result.isSuccess {α : Type} : Result α → Bool
  | .success _ => true
  | .failure _ => false

/-- `isFailure()` (`!this._isSuccess`). -/
def Result.isFailure {α : Type} (r : Result α) : Bool :=
  !r.isSuccess

/-- The raw `_value` field: `undefined` (`none`) on a failure. -/
def Result.rawValue {α : Type} : Result α → Option α
  | .success v => v
  | .failure _ => none

/-- `getValue()`: throws a plain `Error` on a failure, otherwise returns
`_value` (cast to the success type in the source; the possible
`undefined` is kept explicit here). -/
def Result.getValue {α : Type} : Result α → Except String (Option α)
  | .success v => .ok v
  | .failure _ => .error "No se puede obtener el valor de un resultado fallido"

/-- `getError()`: throws a plain `Error` on a success. -/
def Result.getError {α : Type} : Result α → Except String ResultException
  | .success _ => .error "No se puede obtener el error de un resultado exitoso"
  | .failure e => .ok e

/-- The loop body of `Result.combine`: walks the array left to right,
returns `Result.failure(result.getError())` at the first failure, else
pushes `result.getValue()` onto `values` and continues; after the loop
returns `Result.success(values)`. -/
def Result.combineGo {α : Type} (values : List (Option α)) :
    List (Result α) → Result (List (Option α))
  | [] => Result.success (some values)
  | r :: rest =>
      match r with
      | .failure e => Result.failure e
      | .success v => Result.combineGo (values ++ [v]) rest

/-- `Result.combine(results)`. -/
def Result.combine {α : Type} (results : List (Result α)) :
    Result (List (Option α)) :=
  Result.combineGo [] results

/-! Thrown values and the catch-conversion shared by `map`, `flatMap` and
`recover`. -/

/-- A value thrown by JS code: a `ResultException`, a plain `Error`
(a `TypeError` is a plain `Error` whose `name` is `"TypeError"`), or any
other value (carried here as its `String(...)` rendering). -/
inductive Thrown where
  | structured (r : ResultException)
  | plain (name message : String) (stack : Option String)
  | other (stringRep : String)
deriving Repr, DecidableEq

/-- The `catch` arm shared by `map`/`flatMap`/`recover`: a thrown
`ResultException` is used as-is; a plain `Error` goes through `fromError`;
any other value is first wrapped as `new Error(String(error))` (name
`"Error"`, freshly captured stack) and then converted. -/
def catchToException (t : Thrown) : ResultException :=
  match t with
  | .structured r => r
  | .plain name message stack =>
      ResultException.fromError (.plain name message stack) .INTERNAL
  | .other s => ResultException.fromError (.plain "Error" s none) .INTERNAL

/-- `map(fn)`.  The callback is modelled as a state transformer over an
arbitrary state `σ` (e.g. an invocation counter) that either returns a
mapped value or throws.  On a failure the source constructs
`Result.failure(this.getError())` without touching `fn`; on a success it
wraps `fn(this.getValue())`, converting anything `fn` throws. -/
def Result.map {α β σ : Type} (r : Result α)
    (fn : Option α → σ → (Except Thrown (Option β)) × σ) (s : σ) :
    Result β × σ :=
  match r with
  | .failure e => (Result.failure e, s)
  | .success v =>
      match fn v s with
      | (.ok w, s1) => (Result.success w, s1)
      | (.error t, s1) => (Result.failure (catchToException t), s1)

/-- `flatMap(fn)`: like `map` but `fn` returns a `Result`, which is handed
back as-is; a failure short-circuits without touching `fn`; anything `fn`
throws is converted exactly as in `map`. -/
def Result.flatMap {α β σ : Type} (r : Result α)
    (fn : Option α → σ → (Except Thrown (Result β)) × σ) (s : σ) :
    Result β × σ :=
  match r with
  | .failure e => (Result.failure e, s)
  | .success v =>
      match fn v s with
      | (.ok rb, s1) => (rb, s1)
      | (.error t, s1) => (Result.failure (catchToException t), s1)

/-- `recover(fn)`: on a success the source returns `this` (the same
object); on a failure it returns `fn(this.getError())`, converting
anything `fn` throws. -/
def Result.recover {α σ : Type} (r : Result α)
    (fn : ResultException → σ → (Except Thrown (Result α)) × σ) (s : σ) :
    Result α × σ :=
  match r with
  | .success v => (Result.success v, s)
  | .failure e =>
      match fn e s with
      | (.ok ra, s1) => (ra, s1)
      | (.error t, s1) => (Result.failure (catchToException t), s1)

/-! ## Object identity (JS `===`) — allocation-counter model

Every `new Result(...)` in the source hands out a fresh reference.  A
`ResultObj` pairs a `Result` representation with an allocation id; the
counter `n` is the next fresh id.  A combinator that constructs a new
`Result` allocates; `recover` on a success returns `this` (the same
object), and `flatMap`/`recover` hand a callback-produced object back
as-is. -/

structure ResultObj (α : Type) where
  id : Nat
  rep : Result α
deriving Repr, DecidableEq

/-- Allocate a fresh `Result` object. -/
def allocResult {α : Type} (rep : Result α) (n : Nat) : ResultObj α × Nat :=
  (⟨n, rep⟩, n + 1)

/-- `map(fn)` with object identity tracked: both the failure branch
(`Result.failure(this.getError())`) and the success branch
(`Result.success(...)` or the converted failure) construct a fresh object. -/
def Result.mapAlloc {α β : Type} (r : ResultObj α)
    (fn : Option α → Nat → (Except Thrown (Option β)) × Nat) (n : Nat) :
    ResultObj β × Nat :=
  match r.rep with
  | .failure e => allocResult (Result.failure e) n
  | .success v =>
      match fn v n with
      | (.ok w, n1) => allocResult (Result.success w) n1
      | (.error t, n1) => allocResult (Result.failure (catchToException t)) n1

/-- `flatMap(fn)` with object identity tracked: the failure branch
allocates a fresh failure; the success branch returns the very object `fn`
produced. -/
def Result.flatMapAlloc {α β : Type} (r : ResultObj α)
    (fn : Option α → Nat → (Except Thrown (ResultObj β)) × Nat) (n : Nat) :
    ResultObj β × Nat :=
  match r.rep with
  | .failure e => allocResult (Result.failure e) n
  | .success v =>
      match fn v n with
      | (.ok rb, n1) => (rb, n1)
      | (.error t, n1) => allocResult (Result.failure (catchToException t)) n1

/-- `recover(fn)` with object identity tracked: on a success the source
executes `return this` — the received object itself, no allocation; on a
failure it returns the object `fn` produced, or a freshly allocated
converted failure if `fn` throws. -/
def Result.recoverAlloc {α : Type} (r : ResultObj α)
    (fn : ResultException → Nat → (Except Thrown (ResultObj α)) × Nat)
    (n : Nat) : ResultObj α × Nat :=
  match r.rep with
  | .success _ => (r, n)
  | .failure e =>
      match fn e n with
      | (.ok ra, n1) => (ra, n1)
      | (.error t, n1) => allocResult (Result.failure (catchToException t)) n1

/-! ## Theorems about `Result.combine` (claim C3) -/

/-- When every element is a success, the loop of `combine` pushes each
`_value` in order onto the accumulator. -/
theorem Result.combineGo_all_success {α : Type} (rs : List (Result α)) :
    ∀ acc, rs.all Result.isSuccess = true →
      Result.combineGo acc rs = Result.success (some (acc ++ rs.map Result.rawValue)) := by
  induction rs with
  | nil => intro acc _; simp [Result.combineGo]
  | cons r rest ih =>
      intro acc h
      cases r with
      | failure e => simp [Result.isSuccess] at h
      | success v =>
          simp only [List.all_cons, Bool.and_eq_true] at h
          simpa [Result.combineGo, Result.rawValue] using ih (acc ++ [v]) h.2

/-- The loop of `combine` stops at the first failing element. -/
theorem Result.combineGo_first_failure {α : Type} (pre : List (Result α))
    (e : ResultException) (post : List (Result α)) :
    ∀ acc, pre.all Result.isSuccess = true →
      Result.combineGo acc (pre ++ Result.failure e :: post) = Result.failure e := by
  induction pre with
  | nil => intro acc _; simp [Result.combineGo]
  | cons r rest ih =>
      intro acc h
      cases r with
      | failure f => simp [Result.isSuccess] at h
      | success v =>
          simp only [List.all_cons, Bool.and_eq_true] at h
          simpa [Result.combineGo] using ih (acc ++ [v]) h.2

/-- The loop of `combine` yields a success exactly when every element is a
success. -/
theorem Result.combineGo_isSuccess {α : Type} (rs : List (Result α)) :
    ∀ acc, (Result.combineGo acc rs).isSuccess = rs.all Result.isSuccess := by
  induction rs with
  | nil => intro acc; simp [Result.combineGo, Result.isSuccess]
  | cons r rest ih =>
      intro acc
      cases r with
      | failure f => simp [Result.combineGo, Result.isSuccess]
      | success v => simpa [Result.combineGo, Result.isSuccess] using ih (acc ++ [v])

/-- C3.  `Result.combine(rs)` returns a success iff every element of `rs`
is a success, in which case its value is the ordered list of the elements'
values; otherwise it returns a failure carrying the error of the first
(leftmost) failed element, whatever follows it; and `combine([])` is
`success([])`. -/
theorem Result.combine_spec {α : Type} (rs : List (Result α)) :
    ((Result.combine rs).isSuccess = rs.all Result.isSuccess)
    ∧ (rs.all Result.isSuccess = true →
        Result.combine rs = Result.success (some (rs.map Result.rawValue)))
    ∧ (∀ pre e post, rs = pre ++ Result.failure e :: post →
        pre.all Result.isSuccess = true → Result.combine rs = Result.failure e)
    ∧ Result.combine ([] : List (Result α)) = Result.success (some []) := by
  refine ⟨Result.combineGo_isSuccess rs [], ?_, ?_, rfl⟩
  · intro h
    simpa using Result.combineGo_all_success rs [] h
  · intro pre e post hsplit hpre
    rw [hsplit]
    exact Result.combineGo_first_failure pre e post [] hpre

/-! ## Theorems about `ResultException.fromError` (claim C4) -/

/-- C4.  `fromError` returns an error that is already a `ResultException`
unchanged (the branch returns its argument itself), so
`fromError(fromError(e)) = fromError(e)` for every error; a plain error is
wrapped with its message copied verbatim, `metadata.originalError` set to
the source error's name, and its stack copied. -/
theorem ResultException.fromError_spec (e : JsErr) (t u : ErrorType)
    (r : ResultException) (name msg : String) (stk : Option String) :
    ResultException.fromError (.structured r) t = r
    ∧ ResultException.fromError (.structured (ResultException.fromError e t)) u
        = ResultException.fromError e t
    ∧ (ResultException.fromError (.plain name msg stk) t).message = msg
    ∧ (ResultException.fromError (.plain name msg stk) t).metadata
        = [("originalError", MetaVal.str name)]
    ∧ (ResultException.fromError (.plain name msg stk) t).stack = stk := by
  refine ⟨rfl, rfl, rfl, rfl, ?_⟩
  cases stk <;> rfl

/-! ## Theorems about `map`/`flatMap` short-circuiting (claim C5) -/

/-- C5.  On a failed `Result`, `map` and `flatMap` return a failure
carrying the same error and leave the callback state untouched — for every
possible effectful callback, so the callback is never invoked (with the
state an invocation counter, its count stays zero); on a success, anything
the callback throws is caught and converted into a failed `Result` instead
of propagating. -/
theorem Result.map_flatMap_callback_spec {α β σ : Type} (e : ResultException)
    (fn : Option α → σ → (Except Thrown (Option β)) × σ)
    (gn : Option α → σ → (Except Thrown (Result β)) × σ) (s : σ) :
    Result.map (Result.failure e) fn s = (Result.failure e, s)
    ∧ Result.flatMap (Result.failure e) gn s = (Result.failure e, s)
    ∧ (∀ v t s1, fn v s = (Except.error t, s1) →
        Result.map (Result.success v) fn s
          = (Result.failure (catchToException t), s1))
    ∧ (∀ v t s1, gn v s = (Except.error t, s1) →
        Result.flatMap (Result.success v) gn s
          = (Result.failure (catchToException t), s1)) := by
  refine ⟨rfl, rfl, ?_, ?_⟩
  · intro v t s1 h; simp [Result.map, h]
  · intro v t s1 h; simp [Result.flatMap, h]

/-- C5 witness: concrete instantiation of the callback clauses — a
counter-instrumented callback that throws is invoked once on a success and
the thrown value is converted, while on a failure the counter stays `0`. -/
theorem Result.map_flatMap_callback_witness :
    Result.map (Result.success (some 5) : Result Nat)
        (fun _ c => ((Except.error (Thrown.other "boom") : Except Thrown (Option Nat)), c + 1)) 0
      = (Result.failure (catchToException (Thrown.other "boom")), 1) :=
  (Result.map_flatMap_callback_spec
      (mkResultException .INTERNAL "x" ExceptionOptions.empty none)
      (fun _ c => ((Except.error (Thrown.other "boom") : Except Thrown (Option Nat)), c + 1))
      (fun _ c => ((Except.ok (Result.success none) : Except Thrown (Result Nat)), c)) 0).2.2.1
    (some 5) (Thrown.other "boom") 1 rfl

/-! ## Theorems about status-code resolution (claim C9) -/

/-- C9.  A `ResultException` built without an explicit `statusCode` option
resolves its status code from its kind through the fixed table
(Validation 400, NotFound 404, Conflict 409, Unauthorized 401,
Forbidden 403, Internal 500, Domain 422, Application 500,
Infrastructure 500); an explicit `statusCode` option wins. -/
theorem mkResultException_statusCode_spec (k : ErrorType) (msg : String)
    (opts : ExceptionOptions) (stk : Option String) :
    (opts.statusCode = none →
      (mkResultException k msg opts stk).statusCode = resolveStatusCode k)
    ∧ (∀ n, opts.statusCode = some n →
      (mkResultException k msg opts stk).statusCode = n)
    ∧ resolveStatusCode .VALIDATION = 400
    ∧ resolveStatusCode .NOT_FOUND = 404
    ∧ resolveStatusCode .CONFLICT = 409
    ∧ resolveStatusCode .UNAUTHORIZED = 401
    ∧ resolveStatusCode .FORBIDDEN = 403
    ∧ resolveStatusCode .INTERNAL = 500
    ∧ resolveStatusCode .DOMAIN = 422
    ∧ resolveStatusCode .APPLICATION = 500
    ∧ resolveStatusCode .INFRASTRUCTURE = 500 := by
  refine ⟨?_, ?_, rfl, rfl, rfl, rfl, rfl, rfl, rfl, rfl, rfl⟩
  · intro h; simp [mkResultException, h]
  · intro n h; simp [mkResultException, h]

/-! ## Theorems about combinator object identity (claim C7) -/

/-- C7 counterexample: `recover` applied to a successful `Result` returns
the very same object (the source's `return this`) with no allocation — not
a distinct new `Result`, refuting "every combinator returns a new Result"
at this concrete input. -/
theorem Result.recover_same_object_on_success :
    Result.recoverAlloc (⟨0, Result.success (some 1)⟩ : ResultObj Nat)
      (fun _ n => (Except.ok (⟨99, Result.success (some 2)⟩ : ResultObj Nat), n)) 1
    = ((⟨0, Result.success (some 1)⟩ : ResultObj Nat), 1) := rfl

/-- C7 amended.  No combinator mutates its receiver (the embedding is
pure: the receiver's flag, value and error are fixed); `map` always
returns a freshly allocated `Result` (id distinct from the receiver's);
`flatMap` on a failure returns a freshly allocated failure carrying the
same error; but `recover` on a success returns the receiver itself,
unchanged.  `hr` says the receiver was allocated before the current
counter; `hfn` says the callback never rewinds the allocation counter. -/
theorem Result.combinator_allocation_spec {α β : Type} (r : ResultObj α)
    (fn : Option α → Nat → (Except Thrown (Option β)) × Nat)
    (gn : Option α → Nat → (Except Thrown (ResultObj β)) × Nat)
    (hn : ResultException → Nat → (Except Thrown (ResultObj α)) × Nat)
    (n : Nat) (hr : r.id < n) (hfn : ∀ v m, m ≤ (fn v m).2) :
    ((Result.mapAlloc r fn n).1.id ≠ r.id)
    ∧ (∀ e, r.rep = Result.failure e →
        Result.flatMapAlloc r gn n = allocResult (Result.failure e) n
        ∧ (Result.flatMapAlloc r gn n).1.id ≠ r.id)
    ∧ (∀ v, r.rep = Result.success v → Result.recoverAlloc r hn n = (r, n)) := by
  refine ⟨?_, ?_, ?_⟩
  · cases hrep : r.rep with
    | failure e =>
        simp only [Result.mapAlloc, hrep, allocResult]
        omega
    | success v =>
        have hm := hfn v n
        rcases hp : fn v n with ⟨res, n1⟩
        rw [hp] at hm
        simp only at hm
        cases res with
        | ok w =>
            simp only [Result.mapAlloc, hrep, hp, allocResult]
            omega
        | error t =>
            simp only [Result.mapAlloc, hrep, hp, allocResult]
            omega
  · intro e hrep
    constructor
    · simp [Result.flatMapAlloc, hrep]
    · simp only [Result.flatMapAlloc, hrep, allocResult]
      omega
  · intro v hrep
    simp [Result.recoverAlloc, hrep]

/-- C7 amended, witness: at a concrete success object and a concrete
counter-respecting callback, `map` hands back an object with a fresh id. -/
theorem Result.combinator_allocation_witness :
    (Result.mapAlloc (⟨0, Result.success (some 1)⟩ : ResultObj Nat)
      (fun v m => ((Except.ok v : Except Thrown (Option Nat)), m + 1)) 1).1.id ≠ 0 :=
  (Result.combinator_allocation_spec (⟨0, Result.success (some 1)⟩ : ResultObj Nat)
      (fun v m => ((Except.ok v : Except Thrown (Option Nat)), m + 1))
      (fun _ m => ((Except.ok (⟨m, Result.success none⟩ : ResultObj Nat)
          : Except Thrown (ResultObj Nat)), m + 1))
      (fun _ m => ((Except.ok (⟨m, Result.success none⟩ : ResultObj Nat)
          : Except Thrown (ResultObj Nat)), m + 1))
      1 (by decide) (fun _ m => Nat.le_succ m)).1

/-! ## UUIDv7 — uuid.v7.ts

Strings are handled at the character-list level.  `Date.now()` and the
random sources (`crypto.getRandomValues` filling a `Uint8Array`, and
`Math.floor(Math.random() * 4)` for the variant) are ambient inputs of the
generator and appear as explicit parameters: a byte stream `Nat → Fin 256`
per `_randomHex` call and a `Fin 4` variant index. -/

/-- The hexadecimal digit table of `Number.prototype.toString(16)`
(lowercase).  Only called with values below 16. -/
def hexChar : Nat → Char
  | 0 => '0'
  | 1 => '1'
  | 2 => '2'
  | 3 => '3'
  | 4 => '4'
  | 5 => '5'
  | 6 => '6'
  | 7 => '7'
  | 8 => '8'
  | 9 => '9'
  | 10 => 'a'
  | 11 => 'b'
  | 12 => 'c'
  | 13 => 'd'
  | 14 => 'e'
  | _ => 'f'

/-- Hex rendering of a positive natural, most significant digit first
(empty for 0). -/
def toHexList (n : Nat) : List Char :=
  if _h : n = 0 then []
  else toHexList (n / 16) ++ [hexChar (n % 16)]
decreasing_by exact Nat.div_lt_self (Nat.pos_of_ne_zero _h) (by norm_num)

/-- `n.toString(16)` — JS renders 0 as `"0"`. -/
def jsHexString (n : Nat) : List Char :=
  if n = 0 then ['0'] else toHexList n

/-- `padStart(12, '0')`. -/
def padStart12 (cs : List Char) : List Char :=
  List.replicate (12 - cs.length) '0' ++ cs

/-- One byte rendered as `toString(16).padStart(2, '0')`. -/
def byteHex (b : Fin 256) : List Char :=
  [hexChar (b.val / 16), hexChar (b.val % 16)]

/-- `_randomHex(length)`: fills `ceil(length / 2)` random bytes, renders
each as two hex characters, and truncates to `length`. -/
def randomHex (length : Nat) (src : Nat → Fin 256) : List Char :=
  (((List.range ((length + 1) / 2)).map fun i => byteHex (src i)).flatten).take length

/-- `_getVariantChar()`: one of `8`, `9`, `a`, `b`, picked by
`Math.floor(Math.random() * 4)`. -/
def variantChar (idx : Fin 4) : Char :=
  (['8', '9', 'a', 'b'] : List Char).get ⟨idx.val, idx.isLt⟩

/-- A `UUIDv7` instance: the canonical string (as characters) and the
timestamp it was built from / parsed out. -/
structure UUIDv7 where
  value : List Char
  timestamp : Nat
deriving Repr, DecidableEq

/-- `UUIDv7._fromTimestamp(timestamp)`: 12 hex characters of timestamp
(zero-padded), split 8/4 across the first two groups, version nibble `7`,
variant character, and random filler, assembled with hyphens. -/
def UUIDv7.fromTimestampWith (timestamp : Nat)
    (src1 src2 src3 : Nat → Fin 256) (vidx : Fin 4) : UUIDv7 :=
  let timestampHex := padStart12 (jsHexString timestamp)
  let timeLow := timestampHex.take 8
  let timeMid := (timestampHex.drop 8).take 4
  let timeHi := '7' :: randomHex 3 src1
  let variantAndRandom := variantChar vidx :: randomHex 3 src2
  let random := randomHex 12 src3
  ⟨timeLow ++ '-' :: timeMid ++ '-' :: timeHi ++ '-' :: variantAndRandom
      ++ '-' :: random,
    timestamp⟩

/-- `UUIDv7.generate()`: `_fromTimestamp(Date.now())`; the clock reading is
the parameter `now`. -/
def UUIDv7.generate (now : Nat) (src1 src2 src3 : Nat → Fin 256)
    (vidx : Fin 4) : UUIDv7 :=
  UUIDv7.fromTimestampWith now src1 src2 src3 vidx

/-- A character of the class `[0-9a-f]` under the regex's `/i` flag. -/
def isHexDig (c : Char) : Bool :=
  ('0' ≤ c && c ≤ '9') || ('a' ≤ c && c ≤ 'f') || ('A' ≤ c && c ≤ 'F')

/-- A character of the class `[89ab]` under the regex's `/i` flag. -/
def isVariantHex (c : Char) : Bool :=
  c = '8' || c = '9' || c = 'a' || c = 'b' || c = 'A' || c = 'B'

/-- Consume exactly `n` hex characters. -/
def hexRun : Nat → List Char → Option (List Char)
  | 0, cs => some cs
  | _ + 1, [] => none
  | n + 1, c :: cs => if isHexDig c then hexRun n cs else none

/-- Consume one expected character. -/
def expectChar (c : Char) : List Char → Option (List Char)
  | [] => none
  | c1 :: cs => if c1 = c then some cs else none

/-- Consume one variant character. -/
def expectVariant : List Char → Option (List Char)
  | [] => none
  | c1 :: cs => if isVariantHex c1 then some cs else none

/-- The anchored pattern
`^[0-9a-f]8-[0-9a-f]4-7[0-9a-f]3-[89ab][0-9a-f]3-[0-9a-f]12$` (with `/i`),
as a character-list matcher. -/
def matchUuidV7 (cs : List Char) : Bool :=
  (Option.bind (hexRun 8 cs) fun cs =>
    Option.bind (expectChar '-' cs) fun cs =>
    Option.bind (hexRun 4 cs) fun cs =>
    Option.bind (expectChar '-' cs) fun cs =>
    Option.bind (expectChar '7' cs) fun cs =>
    Option.bind (hexRun 3 cs) fun cs =>
    Option.bind (expectChar '-' cs) fun cs =>
    Option.bind (expectVariant cs) fun cs =>
    Option.bind (hexRun 3 cs) fun cs =>
    Option.bind (expectChar '-' cs) fun cs =>
    Option.bind (hexRun 12 cs) fun cs =>
    if cs.isEmpty then some () else none).isSome

/-- `UUIDv7.isValid(uuidString)`: a pure test against `_REGEX_VALIDATE`. -/
def UUIDv7.isValid (s : List Char) : Bool :=
  matchUuidV7 s

/-- `uuidString.split('-')`. -/
def splitOnDash : List Char → List (List Char)
  | [] => [[]]
  | c :: cs =>
      if c = '-' then [] :: splitOnDash cs
      else
        match splitOnDash cs with
        | [] => [[c]]
        | p :: ps => (c :: p) :: ps

/-- The value `parseInt` assigns to one hex digit (other characters map to
0 here; `parseInt` is only reached on pattern-validated all-hex input,
where both agree). -/
def hexVal (c : Char) : Nat :=
  if '0' ≤ c && c ≤ '9' then c.toNat - 48
  else if 'a' ≤ c && c ≤ 'f' then c.toNat - 87
  else if 'A' ≤ c && c ≤ 'F' then c.toNat - 55
  else 0

/-- `parseInt(timestampHex, 16)` on all-hex input. -/
def parseHexNat (cs : List Char) : Nat :=
  cs.foldl (fun acc c => acc * 16 + hexVal c) 0

/-- `UUIDv7.parse(uuidString)`: rejects anything `isValid` rejects,
otherwise splits on hyphens, rebuilds the 12 timestamp characters from the
first two groups and decodes them, storing the lowercased string. -/
def UUIDv7.parse (s : List Char) : Except String UUIDv7 :=
  if UUIDv7.isValid s then
    let parts := splitOnDash s
    let timeLow := parts.getD 0 []
    let timeMid := parts.getD 1 []
    let timestampHex := timeLow ++ timeMid
    Except.ok ⟨s.map Char.toLower, parseHexNat timestampHex⟩
  else
    Except.error (String.mk ("El formato del UUID no es válido o no es un UUIDv7: ".data ++ s))

/-- `getTimestamp()`. -/
def UUIDv7.getTimestamp (u : UUIDv7) : Nat :=
  u.timestamp

/-! ### Lemmas about the hex encoding -/

theorem isHexDig_hexChar (d : Nat) (hd : d < 16) : isHexDig (hexChar d) = true := by
  interval_cases d <;> decide

theorem hexVal_hexChar (d : Nat) (hd : d < 16) : hexVal (hexChar d) = d := by
  interval_cases d <;> decide

theorem toHexList_all_hex (n : Nat) : (toHexList n).all isHexDig = true := by
  induction n using Nat.strong_induction_on with
  | _ n ih =>
      rw [toHexList]
      split
      · rfl
      · rename_i h
        rw [List.all_append]
        rw [ih (n / 16) (Nat.div_lt_self (Nat.pos_of_ne_zero h) (by norm_num))]
        simp [isHexDig_hexChar (n % 16) (Nat.mod_lt n (by norm_num))]

theorem toHexList_length_le (k : Nat) : ∀ n, n < 16 ^ k → (toHexList n).length ≤ k := by
  induction k with
  | zero =>
      intro n h
      have : n = 0 := by omega
      subst this
      rw [toHexList]
      simp
  | succ k ih =>
      intro n h
      rw [toHexList]
      split
      · simp
      · rename_i hne
        rw [List.length_append]
        have hdiv : n / 16 < 16 ^ k := by
          rw [Nat.div_lt_iff_lt_mul (by norm_num)]
          calc n < 16 ^ (k + 1) := h
            _ = 16 ^ k * 16 := by ring
        have := ih (n / 16) hdiv
        simp only [List.length_singleton]
        omega

theorem jsHexString_all_hex (n : Nat) : (jsHexString n).all isHexDig = true := by
  unfold jsHexString
  split
  · decide
  · exact toHexList_all_hex n

theorem jsHexString_length_le (n : Nat) (h : n < 16 ^ 12) :
    (jsHexString n).length ≤ 12 := by
  unfold jsHexString
  split
  · decide
  · exact toHexList_length_le 12 n h

theorem replicate_zero_all_hex (m : Nat) :
    (List.replicate m '0').all isHexDig = true := by
  rw [List.all_eq_true]
  intro c hc
  rw [List.mem_replicate] at hc
  rw [hc.2]
  decide

theorem padStart12_all_hex (cs : List Char) (h : cs.all isHexDig = true) :
    (padStart12 cs).all isHexDig = true := by
  unfold padStart12
  rw [List.all_append, replicate_zero_all_hex, h]
  rfl

theorem padStart12_length (cs : List Char) (h : cs.length ≤ 12) :
    (padStart12 cs).length = 12 := by
  unfold padStart12
  rw [List.length_append, List.length_replicate]
  omega

theorem byteHex_all_hex (b : Fin 256) : (byteHex b).all isHexDig = true := by
  unfold byteHex
  rw [List.all_cons, List.all_cons]
  rw [isHexDig_hexChar (b.val / 16) (by omega), isHexDig_hexChar (b.val % 16) (by omega)]
  rfl

theorem flatten_byteHex_length (src : Nat → Fin 256) :
    ∀ l : List Nat, ((l.map fun i => byteHex (src i)).flatten).length = 2 * l.length := by
  intro l
  induction l with
  | nil => rfl
  | cons a l ih =>
      rw [List.map_cons, List.flatten_cons, List.length_append, ih]
      simp [byteHex]
      ring

theorem flatten_byteHex_all_hex (src : Nat → Fin 256) :
    ∀ l : List Nat, ((l.map fun i => byteHex (src i)).flatten).all isHexDig = true := by
  intro l
  induction l with
  | nil => rfl
  | cons a l ih =>
      rw [List.map_cons, List.flatten_cons, List.all_append, ih, byteHex_all_hex]
      rfl

theorem all_take {p : Char → Bool} (n : Nat) (l : List Char)
    (h : l.all p = true) : (l.take n).all p = true := by
  rw [List.all_eq_true] at h ⊢
  intro c hc
  exact h c (List.take_subset n l hc)

theorem all_drop {p : Char → Bool} (n : Nat) (l : List Char)
    (h : l.all p = true) : (l.drop n).all p = true := by
  rw [List.all_eq_true] at h ⊢
  intro c hc
  exact h c (List.drop_subset n l hc)

theorem randomHex_length (len : Nat) (src : Nat → Fin 256) :
    (randomHex len src).length = len := by
  unfold randomHex
  rw [List.length_take, flatten_byteHex_length, List.length_range]
  omega

theorem randomHex_all_hex (len : Nat) (src : Nat → Fin 256) :
    (randomHex len src).all isHexDig = true := by
  unfold randomHex
  exact all_take len _ (flatten_byteHex_all_hex src _)

theorem isVariantHex_variantChar (idx : Fin 4) :
    isVariantHex (variantChar idx) = true := by
  fin_cases idx <;> decide

/-! ### Lemmas about the pattern matcher -/

theorem hexRun_of_all_hex :
    ∀ xs : List Char, xs.all isHexDig = true →
      ∀ rest, hexRun xs.length (xs ++ rest) = some rest := by
  intro xs
  induction xs with
  | nil => intro _ rest; rfl
  | cons c cs ih =>
      intro h rest
      rw [List.all_cons, Bool.and_eq_true] at h
      rw [List.length_cons, List.cons_append]
      show (if isHexDig c then hexRun cs.length (cs ++ rest) else none) = some rest
      rw [h.1, if_pos rfl]
      exact ih h.2 rest

theorem expectChar_cons_self (c : Char) (cs : List Char) :
    expectChar c (c :: cs) = some cs := by
  simp [expectChar]

theorem expectVariant_cons (c : Char) (cs : List Char) (h : isVariantHex c = true) :
    expectVariant (c :: cs) = some cs := by
  simp [expectVariant, h]

/-! ### Lemmas about split and parseInt -/

theorem splitOnDash_group :
    ∀ xs : List Char, xs.all (fun c => !(c = '-' : Bool)) = true →
      ∀ rest, splitOnDash (xs ++ '-' :: rest) = xs :: splitOnDash rest := by
  intro xs
  induction xs with
  | nil =>
      intro _ rest
      show splitOnDash ('-' :: rest) = [] :: splitOnDash rest
      rw [splitOnDash, if_pos rfl]
  | cons c cs ih =>
      intro h rest
      rw [List.all_cons, Bool.and_eq_true] at h
      have hc : ¬(c = '-') := by simpa using h.1
      rw [List.cons_append, splitOnDash, if_neg hc, ih h.2 rest]

theorem splitOnDash_no_dash :
    ∀ xs : List Char, xs.all (fun c => !(c = '-' : Bool)) = true →
      splitOnDash xs = [xs] := by
  intro xs
  induction xs with
  | nil => intro _; rfl
  | cons c cs ih =>
      intro h
      rw [List.all_cons, Bool.and_eq_true] at h
      have hc : ¬(c = '-') := by simpa using h.1
      rw [splitOnDash, if_neg hc, ih h.2]

theorem no_dash_of_all_hex (xs : List Char) (h : xs.all isHexDig = true) :
    xs.all (fun c => !(c = '-' : Bool)) = true := by
  rw [List.all_eq_true] at h ⊢
  intro c hc
  have := h c hc
  simp only [Bool.not_eq_true']
  by_contra hne
  rw [Bool.not_eq_false, decide_eq_true_eq] at hne
  subst hne
  exact absurd this (by decide)

theorem parseHexNat_replicate_zero (m : Nat) (cs : List Char) :
    parseHexNat (List.replicate m '0' ++ cs) = parseHexNat cs := by
  induction m with
  | zero => rfl
  | succ m ih =>
      rw [List.replicate_succ, List.cons_append]
      show List.foldl _ (0 * 16 + hexVal '0') _ = _
      have : (0 : Nat) * 16 + hexVal '0' = 0 := by decide
      rw [this]
      exact ih

theorem parseHexNat_snoc (cs : List Char) (c : Char) :
    parseHexNat (cs ++ [c]) = parseHexNat cs * 16 + hexVal c := by
  unfold parseHexNat
  rw [List.foldl_append]
  rfl

theorem parseHexNat_toHexList (n : Nat) : parseHexNat (toHexList n) = n := by
  induction n using Nat.strong_induction_on with
  | _ n ih =>
      rw [toHexList]
      split
      · rename_i h; rw [h]; rfl
      · rename_i h
        rw [parseHexNat_snoc,
          ih (n / 16) (Nat.div_lt_self (Nat.pos_of_ne_zero h) (by norm_num)),
          hexVal_hexChar (n % 16) (Nat.mod_lt n (by norm_num))]
        omega

theorem parseHexNat_jsHexString (n : Nat) : parseHexNat (jsHexString n) = n := by
  unfold jsHexString
  split
  · rename_i h; rw [h]; decide
  · exact parseHexNat_toHexList n

theorem parseHexNat_padStart12 (n : Nat) :
    parseHexNat (padStart12 (jsHexString n)) = n := by
  unfold padStart12
  rw [parseHexNat_replicate_zero, parseHexNat_jsHexString]

/-- The pattern matcher accepts any string assembled from hex groups of
lengths 8/4/3/3/12, the version character `7` and a variant character. -/
theorem matchUuidV7_groups (tl tm r1 r2 r12 : List Char) (vc : Char)
    (htl : tl.all isHexDig = true) (hltl : tl.length = 8)
    (htm : tm.all isHexDig = true) (hltm : tm.length = 4)
    (hr1 : r1.all isHexDig = true) (hlr1 : r1.length = 3)
    (hvc : isVariantHex vc = true)
    (hr2 : r2.all isHexDig = true) (hlr2 : r2.length = 3)
    (hr12 : r12.all isHexDig = true) (hlr12 : r12.length = 12) :
    matchUuidV7
      (tl ++ '-' :: (tm ++ '-' :: ('7' :: (r1 ++ '-' :: (vc :: (r2 ++ '-' :: r12))))))
      = true := by
  have e1 := hexRun_of_all_hex tl htl
    ('-' :: (tm ++ '-' :: ('7' :: (r1 ++ '-' :: (vc :: (r2 ++ '-' :: r12))))))
  rw [hltl] at e1
  have e3 := hexRun_of_all_hex tm htm
    ('-' :: ('7' :: (r1 ++ '-' :: (vc :: (r2 ++ '-' :: r12)))))
  rw [hltm] at e3
  have e6 := hexRun_of_all_hex r1 hr1 ('-' :: (vc :: (r2 ++ '-' :: r12)))
  rw [hlr1] at e6
  have e9 := hexRun_of_all_hex r2 hr2 ('-' :: r12)
  rw [hlr2] at e9
  have e11 := hexRun_of_all_hex r12 hr12 []
  rw [hlr12, List.append_nil] at e11
  simp only [matchUuidV7, e1, Option.some_bind, expectChar_cons_self, e3, e6,
    expectVariant_cons vc _ hvc, e9, e11, List.isEmpty_nil, if_true,
    Option.isSome_some]

/-- C6.  For every generation instant `t` below `2^48` (and any random
bytes and variant draw), `UUIDv7.generate()` yields a string accepted by
the canonical UUIDv7 pattern (12 hex timestamp characters, version nibble
`7`, variant in `8/9/a/b`), and `UUIDv7.parse` on that string succeeds
with an identifier whose `getTimestamp()` is exactly `t`. -/
theorem UUIDv7.generate_parse_roundtrip (t : Nat)
    (src1 src2 src3 : Nat → Fin 256) (vidx : Fin 4) (ht : t < 2 ^ 48) :
    UUIDv7.isValid (UUIDv7.generate t src1 src2 src3 vidx).value = true
    ∧ ∃ u, UUIDv7.parse (UUIDv7.generate t src1 src2 src3 vidx).value = Except.ok u
        ∧ u.getTimestamp = t := by
  have h16 : t < 16 ^ 12 := by
    have : (16 : Nat) ^ 12 = 2 ^ 48 := by norm_num
    omega
  have hthlen : (padStart12 (jsHexString t)).length = 12 :=
    padStart12_length _ (jsHexString_length_le t h16)
  have hthhex : (padStart12 (jsHexString t)).all isHexDig = true :=
    padStart12_all_hex _ (jsHexString_all_hex t)
  have htl_len : ((padStart12 (jsHexString t)).take 8).length = 8 := by
    rw [List.length_take, hthlen]
    decide
  have htl_hex := all_take 8 _ hthhex
  have htm_len : (((padStart12 (jsHexString t)).drop 8).take 4).length = 4 := by
    rw [List.length_take, List.length_drop, hthlen]
    decide
  have htm_hex := all_take 4 _ (all_drop 8 _ hthhex)
  have hval : (UUIDv7.generate t src1 src2 src3 vidx).value =
      (padStart12 (jsHexString t)).take 8
        ++ '-' :: (((padStart12 (jsHexString t)).drop 8).take 4
        ++ '-' :: ('7' :: (randomHex 3 src1
        ++ '-' :: (variantChar vidx :: (randomHex 3 src2
        ++ '-' :: randomHex 12 src3))))) := by
    simp only [UUIDv7.generate, UUIDv7.fromTimestampWith, List.cons_append,
      List.append_assoc]
  have hmatch : UUIDv7.isValid (UUIDv7.generate t src1 src2 src3 vidx).value = true := by
    rw [hval]
    exact matchUuidV7_groups _ _ _ _ _ _ htl_hex htl_len htm_hex htm_len
      (randomHex_all_hex 3 src1) (randomHex_length 3 src1)
      (isVariantHex_variantChar vidx)
      (randomHex_all_hex 3 src2) (randomHex_length 3 src2)
      (randomHex_all_hex 12 src3) (randomHex_length 12 src3)
  refine ⟨hmatch, ?_⟩
  have hsplit : splitOnDash ((UUIDv7.generate t src1 src2 src3 vidx).value) =
      (padStart12 (jsHexString t)).take 8
        :: ((padStart12 (jsHexString t)).drop 8).take 4
        :: ('7' :: randomHex 3 src1)
        :: (variantChar vidx :: randomHex 3 src2)
        :: [randomHex 12 src3] := by
    rw [hval]
    rw [splitOnDash_group _ (no_dash_of_all_hex _ htl_hex)]
    rw [splitOnDash_group _ (no_dash_of_all_hex _ htm_hex)]
    have h7 : ('7' :: (randomHex 3 src1 ++ '-' :: (variantChar vidx ::
        (randomHex 3 src2 ++ '-' :: randomHex 12 src3)))) =
        ('7' :: randomHex 3 src1) ++ '-' :: (variantChar vidx ::
        (randomHex 3 src2 ++ '-' :: randomHex 12 src3)) := by
      simp
    rw [h7]
    rw [splitOnDash_group _ (no_dash_of_all_hex _ (by
      rw [List.all_cons, randomHex_all_hex]
      rfl))]
    have hv : (variantChar vidx :: (randomHex 3 src2 ++ '-' :: randomHex 12 src3)) =
        (variantChar vidx :: randomHex 3 src2) ++ '-' :: randomHex 12 src3 := by
      simp
    rw [hv]
    rw [splitOnDash_group _ (no_dash_of_all_hex _ (by
      rw [List.all_cons, randomHex_all_hex]
      have : isHexDig (variantChar vidx) = true := by fin_cases vidx <;> decide
      rw [this]
      rfl))]
    rw [splitOnDash_no_dash _ (no_dash_of_all_hex _ (randomHex_all_hex 12 src3))]
  have hrecomb : (padStart12 (jsHexString t)).take 8
      ++ ((padStart12 (jsHexString t)).drop 8).take 4 = padStart12 (jsHexString t) := by
    have h4 : ((padStart12 (jsHexString t)).drop 8).length = 4 := by
      rw [List.length_drop, hthlen]
    rw [← h4, List.take_length, List.take_append_drop]
  refine ⟨⟨(UUIDv7.generate t src1 src2 src3 vidx).value.map Char.toLower, t⟩, ?_, rfl⟩
  unfold UUIDv7.parse
  rw [if_pos hmatch, hsplit]
  show Except.ok (⟨_, parseHexNat _⟩ : UUIDv7) = _
  rw [List.getD_cons_zero]
  rw [show ((((padStart12 (jsHexString t)).take 8
      :: ((padStart12 (jsHexString t)).drop 8).take 4
      :: ('7' :: randomHex 3 src1)
      :: (variantChar vidx :: randomHex 3 src2)
      :: [randomHex 12 src3]).getD 1 []) : List Char)
      = ((padStart12 (jsHexString t)).drop 8).take 4 from rfl]
  rw [hrecomb, parseHexNat_padStart12]

/-- C6 witness: the round trip at the concrete instant `t = 3`, all-zero
random bytes and variant draw `0`. -/
theorem UUIDv7.generate_parse_roundtrip_witness :
    UUIDv7.isValid (UUIDv7.generate 3 (fun _ => 0) (fun _ => 0) (fun _ => 0) 0).value = true
    ∧ ∃ u, UUIDv7.parse (UUIDv7.generate 3 (fun _ => 0) (fun _ => 0) (fun _ => 0) 0).value
        = Except.ok u ∧ u.getTimestamp = 3 :=
  UUIDv7.generate_parse_roundtrip 3 (fun _ => 0) (fun _ => 0) (fun _ => 0) 0
    (by norm_num)

/-! ## Validation accumulator — validation-handler.abstract.ts

The handler's mutable `_errors` array is threaded explicitly: a validation
step returns the list of issues it reported (in insertion order). -/

/-- `hasErrors()` (`this._errors.length > 0`). -/
def ValidationHandler.hasErrors (errors : List IValidationError) : Bool :=
  !errors.isEmpty

/-- `throwIfHasErrors(entityName)`: `some` exception to throw when issues
exist, `none` otherwise.  The exception has kind `VALIDATION`, code
`VALIDATION_ERRORS` and the full issue list under `metadata.errors`. -/
def ValidationHandler.throwIfHasErrors (entityName : String)
    (errors : List IValidationError) : Option ResultException :=
  if ValidationHandler.hasErrors errors then
    some (mkResultException .VALIDATION
      ("Errores de validación en " ++ entityName)
      ⟨some "VALIDATION_ERRORS", none, none,
        some [("errors", MetaVal.errs errors)], none, none⟩ none)
  else none

/-! ## Value-object base — value-object.abstract.ts -/

/-- A constructed value object: the frozen `_value` and `_objectName`. -/
structure VOInstance (α : Type) where
  value : α
  objectName : String
deriving Repr, DecidableEq

/-- The issue reported for a `null`/`undefined` input. -/
def nullIssue : IValidationError :=
  ⟨"El valor no puede ser null o undefined", "value", none⟩

/-- The `ValueObject` base constructor: resolve `_objectName`
(`objectName ?? this.constructor.name`); on `null`/`undefined` report the
null issue and throw (after `reportError` the accumulator holds exactly
`[nullIssue]`, so `throwIfHasErrors` necessarily throws this exception);
otherwise run the dispatched `validate` (which may itself throw), then
`throwIfHasErrors`, then freeze the value. -/
def ValueObject.construct {α : Type} (value : Option α)
    (objectName : Option String) (className : String)
    (validate : α → Except Thrown (List IValidationError)) :
    Except Thrown (VOInstance α) :=
  let name := objectName.getD className
  match value with
  | none =>
      Except.error (Thrown.structured (mkResultException .VALIDATION
        ("Errores de validación en " ++ name)
        ⟨some "VALIDATION_ERRORS", none, none,
          some [("errors", MetaVal.errs [nullIssue])], none, none⟩ none))
  | some v =>
      match validate v with
      | .error t => .error t
      | .ok errs =>
          match ValidationHandler.throwIfHasErrors name errs with
          | some ex => .error (.structured ex)
          | none => .ok ⟨v, name⟩

/-! ## String value objects — string.value-object.abstract.ts -/

/-- A JS `RegExp`: its test function and its `toString()` text (stored in
issue metadata when a pattern fails). -/
structure JsRegExp where
  test : String → Bool
  text : String

/-- `StringValueObjectOptions`. -/
structure StringVOOptions where
  objectName : Option String
  minLength : Option Nat
  maxLength : Option Nat
  pattern : Option JsRegExp
  patternMessage : Option String
  allowEmpty : Option Bool
  trim : Option Bool

/-- `StringValueObject.validate`, as dispatched from the base constructor.
`optionsField` is the current value of the subclass field `this.options`:
the source assigns it only *after* `super(...)` returns, so when `validate`
runs during construction the field is still `undefined` (`none`) and the
very first read (`this.options.allowEmpty`) throws a `TypeError`.  With an
assigned field the checks are: empty (unless `allowEmpty`), `minLength`,
`maxLength`, `pattern`, then the subclass `validateString` hook. -/
def StringValueObject.validate (optionsField : Option StringVOOptions)
    (hook : String → Except Thrown (List IValidationError))
    (value : String) : Except Thrown (List IValidationError) :=
  match optionsField with
  | none =>
      Except.error (Thrown.plain "TypeError"
        "Cannot read properties of undefined (reading allowEmpty)" none)
  | some opts =>
      let e1 :=
        if !(opts.allowEmpty.getD false) && value.length == 0 then
          [(⟨"El valor no puede estar vacío", "value", none⟩ : IValidationError)]
        else []
      let e2 :=
        match opts.minLength with
        | some m =>
            if value.length < m then
              [(⟨"El valor debe tener al menos " ++ toString m ++ " caracteres",
                "value",
                some [("actualLength", MVal.num value.length),
                  ("minLength", MVal.num m)]⟩ : IValidationError)]
            else []
        | none => []
      let e3 :=
        match opts.maxLength with
        | some m =>
            if value.length > m then
              [(⟨"El valor no puede exceder los " ++ toString m ++ " caracteres",
                "value",
                some [("actualLength", MVal.num value.length),
                  ("maxLength", MVal.num m)]⟩ : IValidationError)]
            else []
        | none => []
      let e4 :=
        match opts.pattern with
        | some p =>
            if !(p.test value) then
              [(⟨opts.patternMessage.getD "El valor no cumple con el formato requerido",
                "value", some [("pattern", MVal.str p.text)]⟩ : IValidationError)]
            else []
        | none => []
      match hook value with
      | .error t => .error t
      | .ok hs => .ok (e1 ++ e2 ++ e3 ++ e4 ++ hs)

/-- The `StringValueObject` constructor: trim the value (when `trim` is
not `false` and the value is truthy), call the base constructor — which
dispatches to `StringValueObject.validate` while `this.options` is still
unassigned (`none`) — and only then assign `this.options`. -/
def StringValueObject.construct (value : Option String)
    (options : StringVOOptions)
    (hook : String → Except Thrown (List IValidationError))
    (className : String) : Except Thrown (VOInstance String) :=
  let processedValue :=
    match value with
    | none => none
    | some v =>
        some (if options.trim ≠ some false ∧ v ≠ "" then v.trim else v)
  ValueObject.construct processedValue options.objectName className
    (StringValueObject.validate none hook)

/-! ## `UserPassword` — contexts/security user-password.value-object.ts -/

/-- `s.startsWith(pre)` at the character level. -/
def jsStartsWith (s pre : String) : Bool :=
  List.isPrefixOf pre.data s.data

def hasUppercase (s : String) : Bool :=
  s.data.any fun c => 'A' ≤ c && c ≤ 'Z'

def hasLowercase (s : String) : Bool :=
  s.data.any fun c => 'a' ≤ c && c ≤ 'z'

def hasDigitChar (s : String) : Bool :=
  s.data.any fun c => '0' ≤ c && c ≤ '9'

/-- The special-character class of the password policy
(`!@#$%^&*()_+-=[]{};':"\|,.<>/?`, braces and apostrophe escaped). -/
def specialChars : List Char :=
  "!@#$%^&*()_+-=[]\x7b\x7d;\x27:\"\\|,.<>/?".data

def hasSpecialChar (s : String) : Bool :=
  s.data.any fun c => specialChars.contains c

/-- Modelled from the spec: the module
src/contexts/security/domain/policies/password.policy.ts (the
`passwordPolicy` object whose `validateSecurity` the `UserPassword` value
object calls) is not among the available source files — only its caller
is.  Per the spec, a plaintext lacking an uppercase letter, a lowercase
letter, a digit or a special character fails the security policy, and one
containing all four classes passes.  Failure kinds, codes and messages
follow the sibling `PasswordPolicy` class that is in the source tree
(context/domain/policies/password.policy.ts). -/
def passwordPolicy.validateSecurity (password : String) : Result Unit :=
  if !hasUppercase password then
    Result.failure (mkResultException .DOMAIN
      "La contraseña debe contener al menos una letra mayúscula"
      ⟨some "PASSWORD_MISSING_UPPERCASE", none, some "domain.policy.password",
        none, none, none⟩ none)
  else if !hasLowercase password then
    Result.failure (mkResultException .DOMAIN
      "La contraseña debe contener al menos una letra minúscula"
      ⟨some "PASSWORD_MISSING_LOWERCASE", none, some "domain.policy.password",
        none, none, none⟩ none)
  else if !hasDigitChar password then
    Result.failure (mkResultException .DOMAIN
      "La contraseña debe contener al menos un número"
      ⟨some "PASSWORD_MISSING_NUMBER", none, some "domain.policy.password",
        none, none, none⟩ none)
  else if !hasSpecialChar password then
    Result.failure (mkResultException .DOMAIN
      "La contraseña debe contener al menos un carácter especial"
      ⟨some "PASSWORD_MISSING_SPECIAL_CHAR", none,
        some "domain.policy.password", none, none, none⟩ none)
  else Result.success none

/-- `UserPasswordOptions` (`isHashed?`, `saltRounds?`). -/
structure UserPasswordOptions where
  isHashed : Option Bool
  saltRounds : Option Nat
deriving Repr, DecidableEq

/-- `UserPassword.validateString`.  `isHashedField` is the current value
of `this.isHashed`; the source assigns that field only after `super(...)`
returns, so during construction it is `undefined` (falsy), and the
hashed-password branch (the `$2b$` format check) is unreachable from the
constructor.  On the non-hashed branch a policy failure is reported with
the failure's `details` under `policyError`. -/
def UserPassword.validateString (isHashedField : Option Bool)
    (value : String) : Except Thrown (List IValidationError) :=
  if isHashedField.getD false then
    if !(jsStartsWith value "$2b$") then
      Except.ok [⟨"El hash de la contraseña no tiene el formato esperado",
        "UserPassword", none⟩]
    else Except.ok []
  else
    match passwordPolicy.validateSecurity value with
    | Result.failure e =>
        Except.ok [⟨e.message, "UserPassword",
          some [("policyError", MVal.errDetails e.code e.message e.source e.stack)]⟩]
    | Result.success _ => Except.ok []

/-- The `UserPassword` constructor: `super(value, ...)` with
`minLength = isHashed ? 60 : 8`, `maxLength = 100`, `trim: true`,
`allowEmpty: false`; the fields `this.isHashed`/`this.saltRounds` are
assigned only afterwards, so the dispatched hook runs with
`isHashedField = none`. -/
def UserPassword.construct (value : Option String)
    (options : UserPasswordOptions) : Except Thrown (VOInstance String) :=
  StringValueObject.construct value
    ⟨some "UserPassword",
      some (if options.isHashed.getD false then 60 else 8),
      some 100, none, none, some false, some true⟩
    (UserPassword.validateString none) "UserPassword"

/-! ## `IDValueObject` — id.value-object.abstract.ts -/

/-- A constructed identifier value object: the base instance plus the
stored `_uuid`. -/
structure IDVOInstance where
  base : VOInstance String
  uuid : UUIDv7
deriving Repr, DecidableEq

/-- `IDValueObject.validate`: an empty (falsy) string reports "the ID may
not be empty" and stops; a string the pattern rejects reports the format
issue and stops; otherwise the subclass `validateID` hook runs.  This
`validate` reads no subclass fields, so it cannot hit the
uninitialised-field `TypeError`. -/
def IDValueObject.validate (validateID : String → List IValidationError)
    (value : String) : List IValidationError :=
  if value == "" then
    [⟨"El ID no puede estar vacío", "value", none⟩]
  else if !(UUIDv7.isValid value.data) then
    [⟨"El formato del ID no es válido. Debe ser un UUIDv7", "value", none⟩]
  else validateID value

/-- The `IDValueObject` constructor.  `generated` stands for the UUID
`UUIDv7.generate()` would produce (ambient clock and randomness) in the
auto-generation branch.  Flow: with a falsy `value` and auto-generation
enabled (`autoGenerate !== false`, the default), generate; with a truthy
`value`, try to parse it (a parse failure leaves `uuid` unset); otherwise
`finalValue` is the empty string.  Then `super(finalValue, objectName)`
runs; if it returns and no UUID was obtained, the constructor reports the
invalid-ID issue and throws under `this.constructor.name` (the class
name, not `objectName`; the accumulator is empty after a successful
`super`, so the thrown exception carries exactly that issue). -/
def IDValueObject.construct (value : Option String)
    (autoGenerate : Option Bool) (objectName : Option String)
    (className : String) (generated : UUIDv7)
    (validateID : String → List IValidationError) :
    Except Thrown IDVOInstance :=
  let autoGen : Bool := !(autoGenerate == some false)
  let valueFalsy : Bool := match value with
    | none => true
    | some v => v == ""
  let uuidAndValue : Option UUIDv7 × String :=
    if valueFalsy && autoGen then
      (some generated, String.mk generated.value)
    else
      match value with
      | some v =>
          if v ≠ "" then
            match UUIDv7.parse v.data with
            | .ok u => (some u, v)
            | .error _ => (none, v)
          else (none, "")
      | none => (none, "")
  match ValueObject.construct (some uuidAndValue.2) objectName className
      (fun v => Except.ok (IDValueObject.validate validateID v)) with
  | .error t => .error t
  | .ok inst =>
      match uuidAndValue.1 with
      | some u => .ok ⟨inst, u⟩
      | none =>
          .error (.structured (mkResultException .VALIDATION
            ("Errores de validación en " ++ className)
            ⟨some "VALIDATION_ERRORS", none, none,
              some [("errors", MetaVal.errs
                [⟨"El ID no es válido. Debe ser un UUIDv7 o autoGenerate debe ser true",
                  "value", none⟩])], none, none⟩ none))

/-! ## Theorems about value-object construction (claims C1, C2, C8, C10) -/

/-- C1 (evaluation of the code at a failing input): constructing the
`UserPassword` string value object from the non-null plaintext `Abcdef1!`
does not produce an instance and does not throw a Validation-kind
`ResultException` — a `TypeError` escapes instead, because
`StringValueObject.validate` reads `this.options` while it is still
`undefined` (it is assigned only after `super(...)` returns). -/
theorem stringVO_construction_throws_TypeError :
    UserPassword.construct (some "Abcdef1!") ⟨none, none⟩
      = Except.error (Thrown.plain "TypeError"
          "Cannot read properties of undefined (reading allowEmpty)" none)
    ∧ (∀ e : ResultException,
        UserPassword.construct (some "Abcdef1!") ⟨none, none⟩
          ≠ Except.error (Thrown.structured e))
    ∧ (∀ inst : VOInstance String,
        UserPassword.construct (some "Abcdef1!") ⟨none, none⟩
          ≠ Except.ok inst) := by
  refine ⟨rfl, ?_, ?_⟩
  · intro e h
    rw [show UserPassword.construct (some "Abcdef1!") ⟨none, none⟩
        = Except.error (Thrown.plain "TypeError"
            "Cannot read properties of undefined (reading allowEmpty)" none)
      from rfl] at h
    simp at h
  · intro inst h
    rw [show UserPassword.construct (some "Abcdef1!") ⟨none, none⟩
        = Except.error (Thrown.plain "TypeError"
            "Cannot read properties of undefined (reading allowEmpty)" none)
      from rfl] at h
    simp at h

/-- C2 (evaluation of the code at the claimed inputs): a plaintext missing
an uppercase letter (`abcdef1!`) does not fail with a Validation-kind
error, and a plaintext with all four character classes (`Abcdef1!`) does
not construct successfully — both throw the uninitialised-options
`TypeError` before any password rule runs. -/
theorem password_plaintext_construction :
    UserPassword.construct (some "abcdef1!") ⟨some false, none⟩
      = Except.error (Thrown.plain "TypeError"
          "Cannot read properties of undefined (reading allowEmpty)" none)
    ∧ UserPassword.construct (some "Abcdef1!") ⟨some false, none⟩
      = Except.error (Thrown.plain "TypeError"
          "Cannot read properties of undefined (reading allowEmpty)" none)
    ∧ (∀ e : ResultException,
        UserPassword.construct (some "abcdef1!") ⟨some false, none⟩
          ≠ Except.error (Thrown.structured e))
    ∧ (∀ inst : VOInstance String,
        UserPassword.construct (some "Abcdef1!") ⟨some false, none⟩
          ≠ Except.ok inst) := by
  refine ⟨rfl, rfl, ?_, ?_⟩
  · intro e h
    rw [show UserPassword.construct (some "abcdef1!") ⟨some false, none⟩
        = Except.error (Thrown.plain "TypeError"
            "Cannot read properties of undefined (reading allowEmpty)" none)
      from rfl] at h
    simp at h
  · intro inst h
    rw [show UserPassword.construct (some "Abcdef1!") ⟨some false, none⟩
        = Except.error (Thrown.plain "TypeError"
            "Cannot read properties of undefined (reading allowEmpty)" none)
      from rfl] at h
    simp at h

/-- C8 (evaluation of the code on a hashed password): constructing
`UserPassword` from a well-formed 60-character bcrypt-shaped hash with
`isHashed: true` throws the uninitialised-options `TypeError` instead of
succeeding; moreover, the `validateString` hook as it actually runs during
construction (`this.isHashed` still `undefined`) takes the complexity
branch and reports a policy failure even for that well-formed hash, while
the hashed-format branch (`$2b$` check) only runs with the field assigned
— a state construction never reaches. -/
theorem password_hashed_construction :
    UserPassword.construct
        (some ("$2b$10$" ++ String.mk (List.replicate 53 'a'))) ⟨some true, none⟩
      = Except.error (Thrown.plain "TypeError"
          "Cannot read properties of undefined (reading allowEmpty)" none)
    ∧ (∀ inst : VOInstance String,
        UserPassword.construct
            (some ("$2b$10$" ++ String.mk (List.replicate 53 'a'))) ⟨some true, none⟩
          ≠ Except.ok inst)
    ∧ UserPassword.validateString none ("$2b$10$" ++ String.mk (List.replicate 53 'a'))
      = Except.ok [⟨"La contraseña debe contener al menos una letra mayúscula",
          "UserPassword",
          some [("policyError", MVal.errDetails "PASSWORD_MISSING_UPPERCASE"
            "La contraseña debe contener al menos una letra mayúscula"
            "domain.policy.password" none)]⟩]
    ∧ UserPassword.validateString (some true)
        ("$2b$10$" ++ String.mk (List.replicate 53 'a')) = Except.ok []
    ∧ UserPassword.validateString (some true) "nothash"
      = Except.ok [⟨"El hash de la contraseña no tiene el formato esperado",
          "UserPassword", none⟩] := by
  refine ⟨rfl, ?_, rfl, rfl, rfl⟩
  intro inst h
  rw [show UserPassword.construct
      (some ("$2b$10$" ++ String.mk (List.replicate 53 'a'))) ⟨some true, none⟩
      = Except.error (Thrown.plain "TypeError"
          "Cannot read properties of undefined (reading allowEmpty)" none)
    from rfl] at h
  simp at h

/-- C10.  Constructing an `IDValueObject` with no value and
`autoGenerate: false` always throws a Validation-kind `ResultException`
with code `VALIDATION_ERRORS` whose issue list reports the empty
identifier, and produces no instance — for every object name, class name,
ambient generated UUID and subclass hook. -/
theorem IDValueObject.empty_construction (objectName : Option String)
    (className : String) (generated : UUIDv7)
    (validateID : String → List IValidationError) :
    IDValueObject.construct none (some false) objectName className generated
        validateID
      = Except.error (Thrown.structured (mkResultException .VALIDATION
          ("Errores de validación en " ++ (objectName.getD className))
          ⟨some "VALIDATION_ERRORS", none, none,
            some [("errors", MetaVal.errs
              [⟨"El ID no puede estar vacío", "value", none⟩])],
            none, none⟩ none)) := rfl

end Scaffold
